import Mathlib

/-!
Verification development for the rod-utils retry/timeout orchestration layer.

The Go source is shallowly embedded as follows.

Time values (Go time.Duration, an int64 count of nanoseconds) become Int.
The external browser driver is modelled by an environment: for each attempt
index the environment states the outcome of every driver call the attempt
could make (locate, wait-visible, wait-stable, click), where an outcome is
an Option String, none meaning the call succeeded and some m meaning the
call failed with message m.  A nil Go pointer is modelled by Option: the
value none stands for the nil pointer, and a method call on a nil pointer
is a panic, recorded as a distinct result constructor.

Each actuator run returns, besides the Go return value, a chronological
trace of the observable effects it performed (sleeps between attempts,
driver locate calls, visibility waits, stability waits, clicks), so that
counting claims (number of attempts, delays, waits) are statements about
the trace.
-/

/-- Observable effects performed by the actuator loops, in order. -/
inductive Ev where
  | sleep
  | locate
  | waitVisible
  | waitStable
  | click
  deriving Repr, DecidableEq, BEq

/-- Errors produced by this library, following the wrapping structure of the
Go code: each fmt.Errorf wrapping becomes a constructor carrying what it
wraps (the driver message, or the wrapped error for the aggregated ones). -/
inductive GoErr where
  | goNil
  | raw (msg : String)
  | pageNil
  | notFound (msg : String)
  | notVisible (msg : String)
  | notStable (msg : String)
  | clickFailed (msg : String)
  | allClickAttemptsFailed (last : GoErr)
  | allElementAttemptsFailed (last : GoErr)
  | timedOut
  | mkdirFailed (msg : String)
  | screenshotFailed (msg : String)
  | saveFailed (msg : String)
  deriving Repr, DecidableEq, BEq

/-- The error value fmt.Errorf wraps with the %w verb: the error itself
when it is non-nil, and the Go nil error (constructor goNil) when the
wrapped variable still holds nil. -/
def wrapLast (o : Option GoErr) : GoErr :=
  match o with
  | none => .goNil
  | some e => e

/-- One nanosecond count for a second, as in Go time.Second. -/
def Second : Int := 1000000000

/-- One nanosecond count for a millisecond, as in Go time.Millisecond. -/
def Millisecond : Int := 1000000

/-- RodOptions from page.go lines 109-117. -/
structure RodOptions where
  timeout : Int
  stableDuration : Int
  retryCount : Int
  retryDelay : Int
  mustVisible : Bool
  mustStable : Bool
  mustWaitLoad : Bool
  deriving Repr, DecidableEq

/-- DefaultRodOptions from page.go lines 120-130. -/
def DefaultRodOptions : RodOptions :=
  { timeout := 10 * Second
    stableDuration := 200 * Millisecond
    retryCount := 3
    retryDelay := 500 * Millisecond
    mustVisible := true
    mustWaitLoad := true
    mustStable := true }

/-- Driver outcomes for one attempt: result of the locate call, of the
visibility wait, of the stability wait and of the click, each none on
success and some message on failure. -/
structure AttemptEnv where
  locate : Option String
  visible : Option String
  stable : Option String
  click : Option String
  deriving Repr, DecidableEq

/-- A page handle behaviour: for each attempt index, the driver outcomes
that attempt observes.  A nil page is Option.none at the use sites. -/
def PageEnv : Type := Nat → AttemptEnv

/-- Result of a SafeClick call: a nil-pointer panic, a nil error (success),
or a returned error. -/
inductive ClickRes where
  | panics
  | ok
  | err (e : GoErr)
  deriving Repr, DecidableEq

/-- A SafeClick run: its result and the trace of effects it performed. -/
structure ClickRun where
  res : ClickRes
  trace : List Ev
  deriving Repr, DecidableEq

/-- Loop of SafeClick, page.go lines 140-179, one call per iteration of
for i := 0; i <= opts.RetryCount; i++, with fuel the number of remaining
iterations.  Per the source: sleep when i > 0; dereference the page (panic
when nil); locate, recording element-not-found on failure; wait for
stability unconditionally (the visibility check is commented out in the
source and the stability wait is not guarded by MustStable); click; after a
successful click return nil only when lastErr is nil, otherwise fall
through to the next iteration.  Exhausted fuel is the loop exit, page.go
line 181. -/
def SafeClickGo (page : Option PageEnv) (opts : RodOptions)
    (i fuel : Nat) (lastErr : Option GoErr) : ClickRun :=
  match fuel with
  | 0 => ⟨.err (.allClickAttemptsFailed (wrapLast lastErr)), []⟩
  | fuel + 1 =>
    let pre : List Ev := if 0 < i then [.sleep] else []
    match page with
    | none => ⟨.panics, pre⟩
    | some env =>
      let a := env i
      match a.locate with
      | some e =>
          let r := SafeClickGo page opts (i + 1) fuel (some (.notFound e))
          ⟨r.res, pre ++ .locate :: r.trace⟩
      | none =>
        match a.stable with
        | some e =>
            let r := SafeClickGo page opts (i + 1) fuel (some (.notStable e))
            ⟨r.res, pre ++ .locate :: .waitStable :: r.trace⟩
        | none =>
          match a.click with
          | some e =>
              let r := SafeClickGo page opts (i + 1) fuel (some (.clickFailed e))
              ⟨r.res, pre ++ .locate :: .waitStable :: .click :: r.trace⟩
          | none =>
            match lastErr with
            | none => ⟨.ok, pre ++ [.locate, .waitStable, .click]⟩
            | some _ =>
                let r := SafeClickGo page opts (i + 1) fuel lastErr
                ⟨r.res, pre ++ .locate :: .waitStable :: .click :: r.trace⟩

/-- SafeClick from page.go lines 134-182.  There is no nil check on the
page; a nil opts is replaced by DefaultRodOptions. -/
def SafeClick (page : Option PageEnv) (optsIn : Option RodOptions) : ClickRun :=
  let opts := optsIn.getD DefaultRodOptions
  SafeClickGo page opts 0 (opts.retryCount + 1).toNat none

/-- A SafeElement run: the returned element (some i when the element located
on attempt i was returned), the returned error, and the effect trace. -/
structure ElemRun where
  element : Option Nat
  err : Option GoErr
  trace : List Ev
  deriving Repr, DecidableEq

/-- Loop of SafeElement, page.go lines 197-233.  Per the source: sleep when
i > 0; locate, recording element-not-found on failure; when MustVisible,
wait for visibility; when MustStable, wait for stability; when all enabled
checks pass, return the element together with lastErr as it stands (page.go
line 232 returns element, lastErr without clearing it). -/
def SafeElementGo (env : PageEnv) (opts : RodOptions)
    (i fuel : Nat) (lastErr : Option GoErr) : ElemRun :=
  match fuel with
  | 0 => ⟨none, some (.allElementAttemptsFailed (wrapLast lastErr)), []⟩
  | fuel + 1 =>
    let pre : List Ev := if 0 < i then [.sleep] else []
    let a := env i
    match a.locate with
    | some e =>
        let r := SafeElementGo env opts (i + 1) fuel (some (.notFound e))
        ⟨r.element, r.err, pre ++ .locate :: r.trace⟩
    | none =>
      let visEvs : List Ev := if opts.mustVisible then [.waitVisible] else []
      match (if opts.mustVisible then a.visible else none) with
      | some e =>
          let r := SafeElementGo env opts (i + 1) fuel (some (.notVisible e))
          ⟨r.element, r.err, pre ++ .locate :: (visEvs ++ r.trace)⟩
      | none =>
        let stEvs : List Ev := if opts.mustStable then [.waitStable] else []
        match (if opts.mustStable then a.stable else none) with
        | some e =>
            let r := SafeElementGo env opts (i + 1) fuel (some (.notStable e))
            ⟨r.element, r.err, pre ++ .locate :: (visEvs ++ (stEvs ++ r.trace))⟩
        | none =>
            ⟨some i, lastErr, pre ++ .locate :: (visEvs ++ stEvs)⟩

/-- SafeElement from page.go lines 187-236.  A nil page returns the
precondition error before anything else; a nil opts is replaced by
DefaultRodOptions. -/
def SafeElement (page : Option PageEnv) (optsIn : Option RodOptions) : ElemRun :=
  match page with
  | none => ⟨none, some .pageNil, []⟩
  | some env =>
    let opts := optsIn.getD DefaultRodOptions
    SafeElementGo env opts 0 (opts.retryCount + 1).toNat none

/-- An operation passed to the bounded runner, characterised by the time at
which the function call returns (nanoseconds from the start of the run) and
its returned error, none meaning success. -/
structure OpSpec where
  duration : Int
  result : Option GoErr
  deriving Repr, DecidableEq

/-- timeLimit from the source, lines 320-341.  The goroutine sends on the
unbuffered errorChan only when f returned a non-nil error (the source sends
nothing on success); the select returns the received error when the send
happens strictly before the deadline, and the timeout error when the
deadline fires strictly first.  When send and deadline coincide the select
choice is nondeterministic in Go; the parameter tieTimeout fixes that
choice in the model. -/
def timeLimit (timeout : Int) (op : OpSpec) (tieTimeout : Bool) : Option GoErr :=
  match op.result with
  | none => some .timedOut
  | some e =>
    if op.duration < timeout then some e
    else if timeout < op.duration then some .timedOut
    else if tieTimeout then some .timedOut else some e

/-- RodOperationWrapperOptions from the source, lines 261-265. -/
structure RodOperationWrapperOptions where
  timeoutDuration : Option Int
  path : Option String
  name : Option String
  deriving Repr, DecidableEq

/-- Modelled from the spec: the package-level constants DefaultScreenshotPath
and DefaultTimeoutDuration are referenced by RodOperationWrapper but their
defining file is not part of the given sources and the spec does not state
their values, so they are carried as explicit parameters. -/
structure WrapperDefaults where
  defaultScreenshotPath : String
  defaultTimeoutDuration : Int
  deriving Repr, DecidableEq

/-- File-system behaviour seen by RodOperationWrapper: result of
os.MkdirAll on a directory and of os.WriteFile on a file, none on success. -/
structure FsEnv where
  mkdirAll : String → Option String
  writeFile : String → List Nat → Option String

/-- Result of a RodOperationWrapper call: a nil-pointer panic or the
returned error value. -/
inductive WrapRes where
  | panics
  | done (err : Option GoErr)
  deriving Repr, DecidableEq

/-- A RodOperationWrapper run: its result, the time limit it handed to
timeLimit, and the files it wrote (name and bytes). -/
structure WrapRun where
  res : WrapRes
  limit : Int
  filesWritten : List (String × List Nat)
  deriving Repr, DecidableEq

/-- Two-complement wraparound of Go int64 arithmetic. -/
def wrap64 (x : Int) : Int :=
  (x + 9223372036854775808) % 18446744073709551616 - 9223372036854775808

/-- The deadline computed at source line 296:
time.Duration(timeout) times time.Second, in int64 arithmetic. -/
def wrapperLimit (timeout : Int) : Int := wrap64 (timeout * 1000000000)

/-- Go filepath.Dir for the slash-separated paths built at source line 301
(everything before the final slash, or the current directory when the path
has no slash; the additional lexical cleaning of filepath.Dir is not
modelled since the wrapper only ever passes path/name.png strings). -/
def dirOf (s : String) : String :=
  let parts := s.splitOn "/"
  if parts.length ≤ 1 then "." else String.intercalate "/" parts.dropLast

/-- The screenshot file name built at source lines 285-291 and 301. -/
def screenshotNameOf (path ts : String) (name : Option String) : String :=
  match name with
  | none => path ++ "/" ++ ts ++ ".png"
  | some n => path ++ "/" ++ n ++ "_" ++ ts ++ ".png"

/-- RodOperationWrapper from the source, lines 270-316.  The page is used
only on the failure path, at the Screenshot call (a nil page panics there);
ts is the formatted timestamp taken at line 285; the operation outcome and
tieTimeout parametrise timeLimit as above. -/
def RodOperationWrapper (defaults : WrapperDefaults) (fs : FsEnv)
    (page : Option (Except String (List Nat))) (ts : String)
    (op : OpSpec) (tieTimeout : Bool)
    (opts : Option RodOperationWrapperOptions) : WrapRun :=
  let timeout0 := match opts with | some o => o.timeoutDuration | none => none
  let path0 := match opts with | some o => o.path | none => none
  let name0 := match opts with | some o => o.name | none => none
  let path := path0.getD defaults.defaultScreenshotPath
  let timeout := timeout0.getD defaults.defaultTimeoutDuration
  let limit := wrapperLimit timeout
  let err := timeLimit limit op tieTimeout
  let k : WrapRes × List (String × List Nat) :=
    match err with
    | none => (.done none, [])
    | some _ =>
      let screenshotName := screenshotNameOf path ts name0
      let dir := dirOf screenshotName
      match fs.mkdirAll dir with
      | some e => (.done (some (.mkdirFailed e)), [])
      | none =>
        match page with
        | none => (.panics, [])
        | some shot =>
          match shot with
          | .error e => (.done (some (.screenshotFailed e)), [])
          | .ok data =>
            match fs.writeFile screenshotName data with
            | some e => (.done (some (.saveFailed e)), [])
            | none => (.done err, [(screenshotName, data)])
  ⟨k.1, limit, k.2⟩

/-- The failure cause one SafeClick attempt records, as a function of the
driver outcomes of that attempt: locate failure, else stability failure,
else click failure, else none (all steps succeeded). -/
def clickAttemptErr (a : AttemptEnv) : Option GoErr :=
  match a.locate with
  | some e => some (.notFound e)
  | none =>
    match a.stable with
    | some e => some (.notStable e)
    | none =>
      match a.click with
      | some e => some (.clickFailed e)
      | none => none

/-- The failure cause one SafeElement attempt records, as a function of the
policy flags and the driver outcomes of that attempt. -/
def elementAttemptErr (opts : RodOptions) (a : AttemptEnv) : Option GoErr :=
  match a.locate with
  | some e => some (.notFound e)
  | none =>
    match (if opts.mustVisible then a.visible else none) with
    | some e => some (.notVisible e)
    | none =>
      match (if opts.mustStable then a.stable else none) with
      | some e => some (.notStable e)
      | none => none

/-- An environment in which every driver call succeeds on every attempt. -/
def envAllOk : PageEnv := fun _ => ⟨none, none, none, none⟩

/-- An environment in which attempt 0 fails to locate and every later
attempt succeeds throughout. -/
def envFirstMiss : PageEnv := fun i =>
  if i = 0 then ⟨some "e0", none, none, none⟩ else ⟨none, none, none, none⟩

/-- Number of occurrences of an effect in a trace. -/
def countEv (e : Ev) : List Ev → Nat
  | [] => 0
  | x :: rest => (if x = e then 1 else 0) + countEv e rest

/-- Every stability wait in a trace is immediately preceded by a visibility
wait; prev is the event just before the part of the trace still to check. -/
def stableAfterVisible (prev : Option Ev) : List Ev → Prop
  | [] => True
  | e :: rest =>
      (e = Ev.waitStable → prev = some Ev.waitVisible) ∧ stableAfterVisible (some e) rest

/-- An environment in which no attempt ever locates the element. -/
def envNeverFound : PageEnv := fun _ => ⟨some "miss", none, none, none⟩

/-- SafeClick options with two retries; the other fields are the defaults. -/
def optsTwoRetries : RodOptions := { DefaultRodOptions with retryCount := 2 }

/-- SafeElement options with one retry and both optional checks disabled. -/
def optsOneRetryNoChecks : RodOptions :=
  { DefaultRodOptions with retryCount := 1, mustVisible := false, mustStable := false }

/-- SafeClick options with no retries and both optional checks disabled. -/
def optsNoRetryNoChecks : RodOptions :=
  { DefaultRodOptions with retryCount := 0, mustVisible := false, mustStable := false }

/-- A file system in which every directory creation fails with EACCES and
every file write succeeds. -/
def fsDenied : FsEnv := ⟨fun _ => some "EACCES", fun _ _ => none⟩

/-- A file system in which every call succeeds. -/
def fsOk : FsEnv := ⟨fun _ => none, fun _ _ => none⟩

/-- A file system in which directory creation succeeds and every file
write fails with ENOSPC. -/
def fsWriteDenied : FsEnv := ⟨fun _ => none, fun _ _ => some "ENOSPC"⟩

/-- Sample wrapper defaults standing for the constants of the missing
constants file. -/
def sampleDefaults : WrapperDefaults := ⟨"screenshots", 9⟩

/-- An operation that fails after one nanosecond with the message boom. -/
def opBoom : OpSpec := ⟨1, some (.raw "boom")⟩

/-- An operation that fails after one nanosecond with the message crash. -/
def opCrash : OpSpec := ⟨1, some (.raw "crash")⟩

/-- Wrapper options selecting a five second timeout, the directory shots
and the name login. -/
def wrapOptsNamed : RodOperationWrapperOptions := ⟨some 5, some "shots", some "login"⟩

/-- Claim C1: the bounded runner is claimed to return the operation result,
including success, whenever the operation completes strictly before the
deadline.  The code disagrees: on success the goroutine never sends on the
channel, so the select can only take the deadline branch.  This theorem
evaluates timeLimit at the failing input: an operation that succeeds after
one second under a five second deadline still yields the timeout error. -/
theorem timeLimit_fast_success_still_times_out :
    timeLimit (5 * Second) ⟨1 * Second, none⟩ false = some .timedOut ∧
    timeLimit (5 * Second) ⟨1 * Second, some (.raw "boom")⟩ false = some (.raw "boom") := by
  constructor
  · rfl
  · decide

/-- Claim C2: SafeClick is claimed to return success right after the first
fully successful attempt k, with no further attempts or clicks.  The code
disagrees for k greater than one: lastErr still holds the earlier failure,
so the guard before return nil fails and the loop continues.  This theorem
evaluates SafeClick at the failing input (retryCount two, attempt one fails
to locate, attempts two and three fully succeed): the loop clicks twice and
finally reports exhaustion wrapping the stale locate failure. -/
theorem safeClick_success_after_failure_keeps_looping :
    (SafeClick (some envFirstMiss) (some optsTwoRetries)).res
        = .err (.allClickAttemptsFailed (.notFound "e0")) ∧
    countEv .click (SafeClick (some envFirstMiss) (some optsTwoRetries)).trace = 2 ∧
    countEv .locate (SafeClick (some envFirstMiss) (some optsTwoRetries)).trace = 3 := by
  refine ⟨by decide, by decide, by decide⟩

/-- Claim C5: SafeElement is claimed to return a nil error whenever some
attempt passes all enabled checks.  The code disagrees: the success return
at page.go line 232 hands back lastErr as it stands, so a success on a
later attempt carries the previous attempt failure.  This theorem evaluates
SafeElement at the failing input: attempt one fails to locate, attempt two
succeeds, and the call returns the element of attempt two together with the
stale not-found error. -/
theorem safeElement_success_carries_stale_error :
    SafeElement (some envFirstMiss) (some optsOneRetryNoChecks)
      = ⟨some 1, some (.notFound "e0"), [.locate, .sleep, .locate]⟩ := by
  decide

/-- Claim C3 counterexample: SafeClick performs no nil check on the page,
so a nil page does not produce a precondition error; the first attempt
dereferences the nil pointer. -/
theorem safeClick_nil_page_no_precondition_error :
    (SafeClick none none).res = .panics ∧
    (SafeClick none none).res ≠ .err .pageNil := by
  refine ⟨by decide, by decide⟩

/-- Claim C4 counterexample: with mustVisible and mustStable both false,
SafeClick still performs a stability wait after a successful locate, so the
claim that both actuator variants skip the waits is false. -/
theorem safeClick_stability_wait_despite_flags :
    countEv .waitStable (SafeClick (some envAllOk) (some optsNoRetryNoChecks)).trace = 1 ∧
    ¬ countEv .waitStable (SafeClick (some envAllOk) (some optsNoRetryNoChecks)).trace = 0 := by
  refine ⟨by decide, by decide⟩

/-- Claim C7 counterexample: when directory creation fails, the wrapper
returns the directory-creation error instead of the original operation
error; the operation failure is replaced, not preserved: two runs whose
operations fail with different messages return the same error value. -/
theorem wrapper_mkdir_error_masks_operation_error :
    (RodOperationWrapper sampleDefaults fsDenied (some (.ok [1])) "T"
        opBoom false (some wrapOptsNamed)).res
      = .done (some (.mkdirFailed "EACCES")) ∧
    (RodOperationWrapper sampleDefaults fsDenied (some (.ok [1])) "T"
        opBoom false (some wrapOptsNamed)).res
      ≠ .done (some (.raw "boom")) ∧
    (RodOperationWrapper sampleDefaults fsDenied (some (.ok [1])) "T"
        opBoom false (some wrapOptsNamed)).res
      = (RodOperationWrapper sampleDefaults fsDenied (some (.ok [1])) "T"
        opCrash false (some wrapOptsNamed)).res := by
  refine ⟨by decide, by decide, by decide⟩

/-- Claim C8: the default policy has timeout ten seconds, stable duration
two hundred milliseconds, retry count three, retry delay five hundred
milliseconds, and all three requirement flags set. -/
theorem defaultRodOptions_values :
    DefaultRodOptions.timeout = 10000000000 ∧
    DefaultRodOptions.stableDuration = 200000000 ∧
    DefaultRodOptions.retryCount = 3 ∧
    DefaultRodOptions.retryDelay = 500000000 ∧
    DefaultRodOptions.mustVisible = true ∧
    DefaultRodOptions.mustStable = true ∧
    DefaultRodOptions.mustWaitLoad = true := by
  refine ⟨by decide, by decide, by decide, by decide, rfl, rfl, rfl⟩

/-- Claim C9: calling SafeClick or SafeElement with nil options behaves
identically to calling it with the default policy. -/
theorem nil_options_replaced_by_default :
    ∀ page : Option PageEnv,
      SafeClick page none = SafeClick page (some DefaultRodOptions) ∧
      SafeElement page none = SafeElement page (some DefaultRodOptions) := by
  intro page
  cases page <;> exact ⟨rfl, rfl⟩


/-- Counting distributes over trace concatenation. -/
lemma countEv_append (e : Ev) (l1 l2 : List Ev) :
    countEv e (l1 ++ l2) = countEv e l1 + countEv e l2 := by
  induction l1 with
  | nil => simp [countEv]
  | cons x rest ih => simp [countEv, ih]; omega

/-- The inter-attempt sleep guard holds on every attempt after the first. -/
lemma if_pos_succ (i : Nat) : (if 0 < i + 1 then 1 else 0) = 1 :=
  if_pos (Nat.succ_pos i)

/-- timeLimit never returns the nil error: the goroutine sends only
non-nil errors and the deadline branch builds a fresh error, so the select
can only ever hand back a non-nil error. -/
lemma timeLimit_ne_none (timeout : Int) (op : OpSpec) (tie : Bool) :
    timeLimit timeout op tie ≠ none := by
  obtain ⟨d, r⟩ := op
  cases r with
  | none => simp [timeLimit]
  | some e =>
    simp only [timeLimit]
    split_ifs <;> simp

/-- No branch of the SafeClick loop ever emits a visibility wait: the
visibility check of the source is commented out. -/
lemma safeClickGo_count_waitVisible (page : Option PageEnv) (opts : RodOptions) :
    ∀ fuel i lastErr,
      countEv .waitVisible (SafeClickGo page opts i fuel lastErr).trace = 0 := by
  intro fuel
  induction fuel with
  | zero => intro i lastErr; simp [SafeClickGo, countEv]
  | succ n ih =>
    intro i lastErr
    cases page with
    | none =>
        by_cases hi : 0 < i <;> simp [SafeClickGo, hi, countEv]
    | some env =>
      rcases hl : (env i).locate with _ | e
      · rcases hs : (env i).stable with _ | e
        · rcases hc : (env i).click with _ | e
          · cases lastErr with
            | none =>
                by_cases hi : 0 < i <;>
                  simp [SafeClickGo, hl, hs, hc, hi, countEv, countEv_append]
            | some e0 =>
                by_cases hi : 0 < i <;>
                  simp [SafeClickGo, hl, hs, hc, hi, countEv, countEv_append, ih]
          · by_cases hi : 0 < i <;>
              simp [SafeClickGo, hl, hs, hc, hi, countEv, countEv_append, ih]
        · by_cases hi : 0 < i <;>
            simp [SafeClickGo, hl, hs, hi, countEv, countEv_append, ih]
      · by_cases hi : 0 < i <;>
          simp [SafeClickGo, hl, hi, countEv, countEv_append, ih]

/-- With both optional checks disabled, the SafeElement loop emits no
visibility wait and no stability wait. -/
lemma safeElementGo_count_waits (env : PageEnv) (opts : RodOptions)
    (hv : opts.mustVisible = false) (hs : opts.mustStable = false) :
    ∀ fuel i lastErr,
      countEv .waitVisible (SafeElementGo env opts i fuel lastErr).trace = 0 ∧
      countEv .waitStable (SafeElementGo env opts i fuel lastErr).trace = 0 := by
  intro fuel
  induction fuel with
  | zero => intro i lastErr; simp [SafeElementGo, countEv]
  | succ n ih =>
    intro i lastErr
    rcases hl : (env i).locate with _ | e
    · by_cases hi : 0 < i <;>
        simp [SafeElementGo, hl, hv, hs, hi, countEv, countEv_append]
    · by_cases hi : 0 < i <;>
        simp [SafeElementGo, hl, hi, countEv, countEv_append, ih]

/-- With the visibility requirement enabled, every stability wait the
SafeElement loop emits comes immediately after a visibility wait: the
visibility check precedes the stability check inside each attempt. -/
lemma safeElementGo_stable_after_visible (env : PageEnv) (opts : RodOptions)
    (hv : opts.mustVisible = true) :
    ∀ fuel i lastErr prev,
      stableAfterVisible prev (SafeElementGo env opts i fuel lastErr).trace := by
  intro fuel
  induction fuel with
  | zero => intro i lastErr prev; simp [SafeElementGo, stableAfterVisible]
  | succ n ih =>
    intro i lastErr prev
    rcases hl : (env i).locate with _ | e
    · rcases hvv : (env i).visible with _ | e
      · cases hms : opts.mustStable with
        | true =>
          rcases hst : (env i).stable with _ | e
          · by_cases hi : 0 < i <;>
              simp [SafeElementGo, hl, hv, hvv, hms, hst, hi, stableAfterVisible]
          · by_cases hi : 0 < i <;>
              simp [SafeElementGo, hl, hv, hvv, hms, hst, hi, stableAfterVisible, ih]
        | false =>
          by_cases hi : 0 < i <;>
            simp [SafeElementGo, hl, hv, hvv, hms, hi, stableAfterVisible]
      · by_cases hi : 0 < i <;>
          simp [SafeElementGo, hl, hv, hvv, hi, stableAfterVisible, ih]
    · by_cases hi : 0 < i <;>
        simp [SafeElementGo, hl, hi, stableAfterVisible, ih]

/-- When every attempt fails, the SafeClick loop runs out of fuel, returns
the aggregated error wrapping the cause recorded by the last attempt, and
performs one locate per attempt with a sleep before every attempt but the
first. -/
lemma safeClickGo_allFail (env : PageEnv) (opts : RodOptions) :
    ∀ fuel, 0 < fuel → ∀ i lastErr,
      (∀ j, j < i + fuel → clickAttemptErr (env j) ≠ none) →
      (SafeClickGo (some env) opts i fuel lastErr).res
          = .err (.allClickAttemptsFailed (wrapLast (clickAttemptErr (env (i + fuel - 1))))) ∧
      countEv .locate (SafeClickGo (some env) opts i fuel lastErr).trace = fuel ∧
      countEv .sleep (SafeClickGo (some env) opts i fuel lastErr).trace
          = fuel - 1 + (if 0 < i then 1 else 0) := by
  intro fuel
  induction fuel with
  | zero => intro h; exact absurd h (lt_irrefl 0)
  | succ n ih =>
    intro _ i lastErr hfail
    have hidx : i + (n + 1) - 1 = i + n := by omega
    rcases hl : (env i).locate with _ | e
    · rcases hs : (env i).stable with _ | e
      · rcases hc : (env i).click with _ | e
        · have h := hfail i (by omega)
          simp [clickAttemptErr, hl, hs, hc] at h
        · rcases Nat.eq_zero_or_pos n with hn | hn
          · subst hn
            by_cases hi : 0 < i <;>
              simp [SafeClickGo, hl, hs, hc, hi, countEv, countEv_append,
                    clickAttemptErr, wrapLast]
          · have IH := ih hn (i + 1) (some (.clickFailed e)) (fun j hj => hfail j (by omega))
            have hidx2 : i + 1 + n - 1 = i + n := by omega
            rw [hidx2] at IH
            by_cases hi : 0 < i <;>
              simp [SafeClickGo, hl, hs, hc, hi, hidx, countEv, countEv_append,
                    IH.1, IH.2.1, IH.2.2, if_pos_succ] <;> omega
      · rcases Nat.eq_zero_or_pos n with hn | hn
        · subst hn
          by_cases hi : 0 < i <;>
            simp [SafeClickGo, hl, hs, hi, countEv, countEv_append,
                  clickAttemptErr, wrapLast]
        · have IH := ih hn (i + 1) (some (.notStable e)) (fun j hj => hfail j (by omega))
          have hidx2 : i + 1 + n - 1 = i + n := by omega
          rw [hidx2] at IH
          by_cases hi : 0 < i <;>
            simp [SafeClickGo, hl, hs, hi, hidx, countEv, countEv_append,
                  IH.1, IH.2.1, IH.2.2, if_pos_succ] <;> omega
    · rcases Nat.eq_zero_or_pos n with hn | hn
      · subst hn
        by_cases hi : 0 < i <;>
          simp [SafeClickGo, hl, hi, countEv, countEv_append,
                clickAttemptErr, wrapLast]
      · have IH := ih hn (i + 1) (some (.notFound e)) (fun j hj => hfail j (by omega))
        have hidx2 : i + 1 + n - 1 = i + n := by omega
        rw [hidx2] at IH
        by_cases hi : 0 < i <;>
          simp [SafeClickGo, hl, hi, hidx, countEv, countEv_append,
                IH.1, IH.2.1, IH.2.2, if_pos_succ] <;> omega

/-- When every attempt fails the enabled checks, the SafeElement loop runs
out of fuel, returns no element and the aggregated error wrapping the cause
recorded by the last attempt, and performs one locate per attempt with a
sleep before every attempt but the first. -/
lemma safeElementGo_allFail (env : PageEnv) (opts : RodOptions) :
    ∀ fuel, 0 < fuel → ∀ i lastErr,
      (∀ j, j < i + fuel → elementAttemptErr opts (env j) ≠ none) →
      (SafeElementGo env opts i fuel lastErr).element = none ∧
      (SafeElementGo env opts i fuel lastErr).err
          = some (.allElementAttemptsFailed
              (wrapLast (elementAttemptErr opts (env (i + fuel - 1))))) ∧
      countEv .locate (SafeElementGo env opts i fuel lastErr).trace = fuel ∧
      countEv .sleep (SafeElementGo env opts i fuel lastErr).trace
          = fuel - 1 + (if 0 < i then 1 else 0) := by
  intro fuel
  induction fuel with
  | zero => intro h; exact absurd h (lt_irrefl 0)
  | succ n ih =>
    intro _ i lastErr hfail
    have hidx : i + (n + 1) - 1 = i + n := by omega
    have hidx2 : i + 1 + n - 1 = i + n := by omega
    rcases hl : (env i).locate with _ | e
    · cases hvf : opts.mustVisible with
      | false =>
        cases hsf : opts.mustStable with
        | false =>
          have h := hfail i (by omega)
          simp [elementAttemptErr, hl, hvf, hsf] at h
        | true =>
          rcases hst : (env i).stable with _ | e
          · have h := hfail i (by omega)
            simp [elementAttemptErr, hl, hvf, hsf, hst] at h
          · rcases Nat.eq_zero_or_pos n with hn | hn
            · subst hn
              by_cases hi : 0 < i <;>
                simp [SafeElementGo, hl, hvf, hsf, hst, hi, countEv, countEv_append,
                      elementAttemptErr, wrapLast]
            · have IH := ih hn (i + 1) (some (.notStable e)) (fun j hj => hfail j (by omega))
              rw [hidx2] at IH
              by_cases hi : 0 < i <;>
                simp [SafeElementGo, hl, hvf, hsf, hst, hi, hidx, countEv,
                      countEv_append, IH.1, IH.2.1, IH.2.2.1, IH.2.2.2,
                      if_pos_succ] <;> omega
      | true =>
        rcases hvv : (env i).visible with _ | e
        · cases hsf : opts.mustStable with
          | false =>
            have h := hfail i (by omega)
            simp [elementAttemptErr, hl, hvf, hvv, hsf] at h
          | true =>
            rcases hst : (env i).stable with _ | e
            · have h := hfail i (by omega)
              simp [elementAttemptErr, hl, hvf, hvv, hsf, hst] at h
            · rcases Nat.eq_zero_or_pos n with hn | hn
              · subst hn
                by_cases hi : 0 < i <;>
                  simp [SafeElementGo, hl, hvf, hvv, hsf, hst, hi, countEv,
                        countEv_append, elementAttemptErr, wrapLast]
              · have IH := ih hn (i + 1) (some (.notStable e)) (fun j hj => hfail j (by omega))
                rw [hidx2] at IH
                by_cases hi : 0 < i <;>
                  simp [SafeElementGo, hl, hvf, hvv, hsf, hst, hi, hidx, countEv,
                        countEv_append, IH.1, IH.2.1, IH.2.2.1, IH.2.2.2,
                        if_pos_succ] <;> omega
        · rcases Nat.eq_zero_or_pos n with hn | hn
          · subst hn
            by_cases hi : 0 < i <;>
              simp [SafeElementGo, hl, hvf, hvv, hi, countEv, countEv_append,
                    elementAttemptErr, wrapLast]
          · have IH := ih hn (i + 1) (some (.notVisible e)) (fun j hj => hfail j (by omega))
            rw [hidx2] at IH
            by_cases hi : 0 < i <;>
              simp [SafeElementGo, hl, hvf, hvv, hi, hidx, countEv, countEv_append,
                    IH.1, IH.2.1, IH.2.2.1, IH.2.2.2, if_pos_succ] <;> omega
    · rcases Nat.eq_zero_or_pos n with hn | hn
      · subst hn
        by_cases hi : 0 < i <;>
          simp [SafeElementGo, hl, hi, countEv, countEv_append,
                elementAttemptErr, wrapLast]
      · have IH := ih hn (i + 1) (some (.notFound e)) (fun j hj => hfail j (by omega))
        rw [hidx2] at IH
        by_cases hi : 0 < i <;>
          simp [SafeElementGo, hl, hi, hidx, countEv, countEv_append,
                IH.1, IH.2.1, IH.2.2.1, IH.2.2.2, if_pos_succ] <;> omega

/-- Claim C6: for every policy with retryCount N at least zero, when every
attempt fails, both actuator variants perform exactly N plus one locate
attempts with N inter-attempt sleeps and return one aggregated error
wrapping only the failure cause recorded by the last attempt (in
particular, for a permanently-failing locate step, a not-found cause). -/
theorem exhaustion_last_failure_wins :
    ∀ (env : PageEnv) (opts : RodOptions), 0 ≤ opts.retryCount →
      (∀ j, j ≤ opts.retryCount.toNat → clickAttemptErr (env j) ≠ none) →
      (∀ j, j ≤ opts.retryCount.toNat → elementAttemptErr opts (env j) ≠ none) →
      ((SafeClick (some env) (some opts)).res
          = .err (.allClickAttemptsFailed
              (wrapLast (clickAttemptErr (env opts.retryCount.toNat)))) ∧
       countEv .locate (SafeClick (some env) (some opts)).trace
          = opts.retryCount.toNat + 1 ∧
       countEv .sleep (SafeClick (some env) (some opts)).trace
          = opts.retryCount.toNat) ∧
      ((SafeElement (some env) (some opts)).element = none ∧
       (SafeElement (some env) (some opts)).err
          = some (.allElementAttemptsFailed
              (wrapLast (elementAttemptErr opts (env opts.retryCount.toNat)))) ∧
       countEv .locate (SafeElement (some env) (some opts)).trace
          = opts.retryCount.toNat + 1 ∧
       countEv .sleep (SafeElement (some env) (some opts)).trace
          = opts.retryCount.toNat) := by
  intro env opts hrc hcf hef
  have hfuel : (opts.retryCount + 1).toNat = opts.retryCount.toNat + 1 := by omega
  constructor
  · have H := safeClickGo_allFail env opts (opts.retryCount.toNat + 1)
      (Nat.succ_pos _) 0 none (fun j hj => hcf j (by omega))
    simp only [Nat.zero_add, Nat.add_sub_cancel, lt_self_iff_false, if_false,
      Nat.add_zero] at H
    simp only [SafeClick, Option.getD_some, hfuel]
    exact H
  · have H := safeElementGo_allFail env opts (opts.retryCount.toNat + 1)
      (Nat.succ_pos _) 0 none (fun j hj => hef j (by omega))
    simp only [Nat.zero_add, Nat.add_sub_cancel, lt_self_iff_false, if_false,
      Nat.add_zero] at H
    simp only [SafeElement, Option.getD_some, hfuel]
    exact H

/-- Witness for claim C6 at a concrete input: the default policy (three
retries) against an environment that never locates the element yields four
locate attempts, three sleeps, and the aggregated error wrapping the last
not-found cause, for both variants. -/
theorem exhaustion_last_failure_wins_witness :
    (SafeClick (some envNeverFound) (some DefaultRodOptions)).res
        = .err (.allClickAttemptsFailed (.notFound "miss")) ∧
    countEv .locate (SafeClick (some envNeverFound) (some DefaultRodOptions)).trace = 4 ∧
    countEv .sleep (SafeClick (some envNeverFound) (some DefaultRodOptions)).trace = 3 ∧
    (SafeElement (some envNeverFound) (some DefaultRodOptions)).err
        = some (.allElementAttemptsFailed (.notFound "miss")) := by
  have H := exhaustion_last_failure_wins envNeverFound DefaultRodOptions (by decide)
      (fun j hj => by simp [envNeverFound, clickAttemptErr])
      (fun j hj => by simp [envNeverFound, elementAttemptErr])
  refine ⟨?_, ?_, ?_, ?_⟩
  · simpa [envNeverFound, clickAttemptErr, wrapLast, DefaultRodOptions] using H.1.1
  · simpa [DefaultRodOptions] using H.1.2.1
  · simpa [DefaultRodOptions] using H.1.2.2
  · simpa [envNeverFound, elementAttemptErr, wrapLast, DefaultRodOptions] using H.2.2.1

/-- Claim C4, amended: for SafeElement, mustVisible false and mustStable
false mean the call performs no visibility wait and no stability wait (the
action follows the successful locate directly), and with mustVisible true
every stability wait comes immediately after a visibility wait; SafeClick
however never performs a visibility wait for any policy, and performs a
stability wait after a successful locate regardless of the flags. -/
theorem wait_policy_per_variant :
    (∀ (env : PageEnv) (opts : RodOptions),
        opts.mustVisible = false → opts.mustStable = false →
        countEv .waitVisible (SafeElement (some env) (some opts)).trace = 0 ∧
        countEv .waitStable (SafeElement (some env) (some opts)).trace = 0) ∧
    (∀ (env : PageEnv) (opts : RodOptions), opts.mustVisible = true →
        stableAfterVisible none (SafeElement (some env) (some opts)).trace) ∧
    (∀ (page : Option PageEnv) (optsIn : Option RodOptions),
        countEv .waitVisible (SafeClick page optsIn).trace = 0) ∧
    (∀ (env : PageEnv) (opts : RodOptions),
        0 ≤ opts.retryCount → (env 0).locate = none →
        0 < countEv .waitStable (SafeClick (some env) (some opts)).trace) := by
  refine ⟨?_, ?_, ?_, ?_⟩
  · intro env opts hv hs
    have H := safeElementGo_count_waits env opts hv hs
        ((opts.retryCount + 1).toNat) 0 none
    simpa only [SafeElement, Option.getD_some] using H
  · intro env opts hv
    have H := safeElementGo_stable_after_visible env opts hv
        ((opts.retryCount + 1).toNat) 0 none none
    simpa only [SafeElement, Option.getD_some] using H
  · intro page optsIn
    exact safeClickGo_count_waitVisible page (optsIn.getD DefaultRodOptions) _ 0 none
  · intro env opts hrc hl0
    have hfuel : (opts.retryCount + 1).toNat = opts.retryCount.toNat + 1 := by omega
    simp only [SafeClick, Option.getD_some, hfuel]
    rcases hs : (env 0).stable with _ | e
    · rcases hc : (env 0).click with _ | e
      · simp [SafeClickGo, hl0, hs, hc, countEv]
      · simp [SafeClickGo, hl0, hs, hc, countEv, countEv_append]
    · simp [SafeClickGo, hl0, hs, countEv, countEv_append]

/-- Witness for the amended claim C4 at concrete inputs: SafeElement with
both checks disabled performs no waits; with the default policy every
stability wait follows a visibility wait; SafeClick performs no visibility
wait and does perform a stability wait under a policy that disables both
checks. -/
theorem wait_policy_per_variant_witness :
    countEv .waitVisible (SafeElement (some envAllOk) (some optsOneRetryNoChecks)).trace = 0 ∧
    countEv .waitStable (SafeElement (some envAllOk) (some optsOneRetryNoChecks)).trace = 0 ∧
    stableAfterVisible none (SafeElement (some envAllOk) (some DefaultRodOptions)).trace ∧
    countEv .waitVisible (SafeClick (some envAllOk) (some optsNoRetryNoChecks)).trace = 0 ∧
    0 < countEv .waitStable (SafeClick (some envAllOk) (some optsNoRetryNoChecks)).trace :=
  ⟨(wait_policy_per_variant.1 envAllOk optsOneRetryNoChecks rfl rfl).1,
   (wait_policy_per_variant.1 envAllOk optsOneRetryNoChecks rfl rfl).2,
   wait_policy_per_variant.2.1 envAllOk DefaultRodOptions rfl,
   wait_policy_per_variant.2.2.1 (some envAllOk) (some optsNoRetryNoChecks),
   wait_policy_per_variant.2.2.2 envAllOk optsNoRetryNoChecks (by decide) rfl⟩

/-- Claim C3, amended: SafeElement returns the precondition error on a nil
page immediately, with no attempt, wait or driver call; SafeClick performs
no nil check and dereferences the nil page on its first attempt; and
RodOperationWrapper performs no nil check either, only reaching the nil
page at the screenshot call on its failure path (which, timeLimit never
returning a nil error, is always taken when directory creation succeeds). -/
theorem nil_target_handling :
    (∀ optsIn : Option RodOptions,
        SafeElement none optsIn = ⟨none, some .pageNil, []⟩) ∧
    (∀ opts : RodOptions, 0 ≤ opts.retryCount →
        (SafeClick none (some opts)).res = .panics ∧
        (SafeClick none (some opts)).trace = []) ∧
    (∀ (defaults : WrapperDefaults) (fs : FsEnv) (ts : String) (op : OpSpec)
        (tie : Bool) (opts : Option RodOperationWrapperOptions),
        (∀ s, fs.mkdirAll s = none) →
        (RodOperationWrapper defaults fs none ts op tie opts).res = .panics) := by
  refine ⟨?_, ?_, ?_⟩
  · intro optsIn
    rfl
  · intro opts hrc
    have hfuel : (opts.retryCount + 1).toNat = opts.retryCount.toNat + 1 := by omega
    constructor <;> simp [SafeClick, Option.getD_some, hfuel, SafeClickGo]
  · intro defaults fs ts op tie opts hmk
    cases opts with
    | none =>
      rcases he : timeLimit (wrapperLimit defaults.defaultTimeoutDuration) op tie with _ | e
      · exact absurd he (timeLimit_ne_none _ _ _)
      · simp [RodOperationWrapper, he, hmk]
    | some o =>
      obtain ⟨t0, p0, n0⟩ := o
      rcases he : timeLimit (wrapperLimit (t0.getD defaults.defaultTimeoutDuration))
          op tie with _ | e
      · exact absurd he (timeLimit_ne_none _ _ _)
      · simp [RodOperationWrapper, he, hmk]

/-- Witness for the amended claim C3 at concrete inputs. -/
theorem nil_target_handling_witness :
    SafeElement none none = ⟨none, some .pageNil, []⟩ ∧
    (SafeClick none (some DefaultRodOptions)).res = .panics ∧
    (RodOperationWrapper sampleDefaults fsOk none "T" opBoom false none).res = .panics :=
  ⟨nil_target_handling.1 none,
   (nil_target_handling.2.1 DefaultRodOptions (by decide)).1,
   nil_target_handling.2.2 sampleDefaults fsOk "T" opBoom false none (fun _ => rfl)⟩

/-- Claim C7, amended: when the wrapped operation fails within the deadline,
the wrapper writes the PNG screenshot named path/name_timestamp.png (or
path/timestamp.png when no name is supplied) and still returns the original
operation error; when directory creation fails, or when writing the screenshot file
fails, the wrapper instead returns the distinct directory-creation or
file-save error, replacing the original operation error rather than
preserving it. -/
theorem screenshot_on_failure :
    ∀ (defaults : WrapperDefaults) (fs : FsEnv) (ts : String) (tie : Bool)
      (t : Int) (p : String) (name0 : Option String) (op : OpSpec)
      (e : GoErr) (data : List Nat),
      op.result = some e → op.duration < wrapperLimit t →
      ((fs.mkdirAll (dirOf (screenshotNameOf p ts name0)) = none →
        fs.writeFile (screenshotNameOf p ts name0) data = none →
        RodOperationWrapper defaults fs (some (.ok data)) ts op tie
            (some ⟨some t, some p, name0⟩)
          = ⟨.done (some e), wrapperLimit t, [(screenshotNameOf p ts name0, data)]⟩) ∧
       (∀ d, fs.mkdirAll (dirOf (screenshotNameOf p ts name0)) = some d →
        RodOperationWrapper defaults fs (some (.ok data)) ts op tie
            (some ⟨some t, some p, name0⟩)
          = ⟨.done (some (.mkdirFailed d)), wrapperLimit t, []⟩) ∧
       (∀ d, fs.mkdirAll (dirOf (screenshotNameOf p ts name0)) = none →
        fs.writeFile (screenshotNameOf p ts name0) data = some d →
        RodOperationWrapper defaults fs (some (.ok data)) ts op tie
            (some ⟨some t, some p, name0⟩)
          = ⟨.done (some (.saveFailed d)), wrapperLimit t, []⟩)) := by
  intro defaults fs ts tie t p name0 op e data hres hdur
  have htl : timeLimit (wrapperLimit t) op tie = some e := by
    obtain ⟨dur, r⟩ := op
    simp only at hres hdur
    subst hres
    simp [timeLimit, hdur]
  refine ⟨?_, ?_, ?_⟩
  · intro hmk hwf
    simp [RodOperationWrapper, htl, hmk, hwf]
  · intro d hmk
    simp [RodOperationWrapper, htl, hmk]
  · intro d hmk hwf
    simp [RodOperationWrapper, htl, hmk, hwf]

/-- Witness for the amended claim C7 at concrete inputs: with a writable
directory the wrapper writes shots/login_T.png and returns the operation
error; with a denied directory it returns the directory-creation error;
with a failing file write it returns the file-save error. -/
theorem screenshot_on_failure_witness :
    RodOperationWrapper sampleDefaults fsOk (some (.ok [1, 2])) "T" opBoom false
        (some ⟨some 5, some "shots", some "login"⟩)
      = ⟨.done (some (.raw "boom")), wrapperLimit 5, [("shots/login_T.png", [1, 2])]⟩ ∧
    RodOperationWrapper sampleDefaults fsDenied (some (.ok [1, 2])) "T" opBoom false
        (some ⟨some 5, some "shots", some "login"⟩)
      = ⟨.done (some (.mkdirFailed "EACCES")), wrapperLimit 5, []⟩ ∧
    RodOperationWrapper sampleDefaults fsWriteDenied (some (.ok [1, 2])) "T" opBoom false
        (some ⟨some 5, some "shots", some "login"⟩)
      = ⟨.done (some (.saveFailed "ENOSPC")), wrapperLimit 5, []⟩ := by
  refine ⟨?_, ?_, ?_⟩
  · have H := (screenshot_on_failure sampleDefaults fsOk "T" false 5 "shots"
        (some "login") opBoom (.raw "boom") [1, 2] rfl (by decide)).1 rfl rfl
    simpa [screenshotNameOf] using H
  · exact (screenshot_on_failure sampleDefaults fsDenied "T" false 5 "shots"
        (some "login") opBoom (.raw "boom") [1, 2] rfl (by decide)).2.1 "EACCES" rfl
  · exact (screenshot_on_failure sampleDefaults fsWriteDenied "T" false 5 "shots"
        (some "login") opBoom (.raw "boom") [1, 2] rfl (by decide)).2.2 "ENOSPC" rfl rfl

/-- Claim C10: the deadline the wrapper hands to the bounded runner is the
configured TimeoutDuration multiplied by one second in nanoseconds (so the
field is read as a count of seconds, and an actual duration value gets
scaled by one billion), whenever the product stays within int64 range. -/
theorem wrapper_timeout_scaled_to_seconds :
    ∀ t : Int, -9223372036854775808 ≤ t * 1000000000 →
      t * 1000000000 < 9223372036854775808 →
      ∀ (defaults : WrapperDefaults) (fs : FsEnv)
        (page : Option (Except String (List Nat))) (ts : String) (op : OpSpec)
        (tie : Bool) (p n : Option String),
        (RodOperationWrapper defaults fs page ts op tie (some ⟨some t, p, n⟩)).limit
          = t * 1000000000 := by
  intro t h1 h2 defaults fs page ts op tie p n
  have hl : (RodOperationWrapper defaults fs page ts op tie (some ⟨some t, p, n⟩)).limit
      = wrapperLimit t := rfl
  rw [hl]
  unfold wrapperLimit wrap64
  rw [Int.emod_eq_of_lt (by omega) (by omega)]
  omega

/-- Witness for claim C10 at a concrete input: a TimeoutDuration of five
becomes a five second deadline of five billion nanoseconds. -/
theorem wrapper_timeout_scaled_to_seconds_witness :
    (-9223372036854775808 ≤ (5 : Int) * 1000000000) ∧
    ((5 : Int) * 1000000000 < 9223372036854775808) ∧
    (RodOperationWrapper sampleDefaults fsOk (some (.ok [1])) "T" opBoom false
        (some ⟨some 5, some "shots", none⟩)).limit = 5 * 1000000000 :=
  ⟨by decide, by decide,
   wrapper_timeout_scaled_to_seconds 5 (by decide) (by decide) sampleDefaults fsOk
     (some (.ok [1])) "T" opBoom false (some "shots") none⟩
